import Mathlib

/-!
Verification of the x509-limbo OpenSSL harness
(src/harness/openssl/main.cpp).

The harness reads a suite of test cases, gates unsupported features,
materializes certificates, configures a validation context (time
override, expected peer identity), invokes the validation engine, and
aggregates per-case results into a report.

Modelling choices:
- The validation engine (OpenSSL) and the low-level primitives it
  provides (PEM decoding, RFC 3339 parsing via the vendored date
  library) are external collaborators; they are modelled as an abstract
  Engine record of pure functions over an opaque certificate type.
- Fatal errors (the barf function, which prints a diagnostic and calls
  exit(1)) are modelled with Except String: an error value means the
  whole run aborts with that diagnostic and no report is written.
- The diagnostic stream (stderr) is modelled as a list of log lines
  carried next to each Result, so that purely-informational logging is
  distinguishable from report content.
- X509_STORE_CTX_set_time installs a fixed check time; without it
  OpenSSL checks against the wall clock.  The VerifyConfig therefore
  carries one effective checkTime, equal to the parsed override when
  one was installed and to the wall clock otherwise.
-/

namespace Limbo

/-- JSON shape of the validation_time field: null, a JSON string, or a
present non-string value (the source tests is_string()). -/
inductive JTime where
  | null
  | str (s : String)
  | nonStr
deriving DecidableEq, Repr

/-- JSON shape of the expected_peer_name field: null, an object with
kind and value members, or a present non-object value (the source tests
is_object()). -/
inductive JPeer where
  | null
  | obj (kind value : String)
  | nonObj
deriving DecidableEq, Repr

/-- A test-case descriptor, with exactly the fields the harness reads.
The four unsupported-feature fields are modelled by whether they are
JSON null (none) or non-null (some ()). -/
structure TestCase where
  id : String
  validation_kind : String
  trusted_certs : List String
  untrusted_intermediates : List String
  peer_certificate : String
  validation_time : JTime
  expected_result : String
  expected_peer_name : JPeer
  signature_algorithms : Option Unit
  key_usage : Option Unit
  extended_key_usage : Option Unit
  expected_peer_names : Option Unit
deriving DecidableEq, Repr

/-- The identity constraint installed on the verification parameters:
X509_VERIFY_PARAM_set1_email, set1_host (with the
X509_CHECK_FLAG_NO_PARTIAL_WILDCARDS host flag), or set1_ip_asc. -/
inductive PeerConstraint where
  | email (v : String)
  | dns (v : String) (fullLabelWildcards : Bool)
  | ip (v : String)
deriving DecidableEq, Repr

/-- Everything the engine invocation X509_verify_cert sees: the trust
store (built with X509_V_FLAG_X509_STRICT), the untrusted stack, the
peer, the effective check time and the optional identity constraint. -/
structure VerifyConfig (C : Type) where
  trusted : List C
  strictProfile : Bool
  untrusted : List C
  peer : C
  checkTime : Int
  identity : Option PeerConstraint
deriving DecidableEq, Repr

/-- The external validation engine and its primitives, as an abstract
contract: certificate decoding (PEM_read_bio_X509), RFC 3339 parsing
(date::parse with format %FT%T%Ez, i.e. mandatory explicit numeric UTC
offset), verification, the diagnostic string for a rejection
(X509_verify_cert_error_string of the context error), and the version
string OPENSSL_VERSION_STR. -/
structure Engine (C : Type) where
  parseCert : String → Option C
  rfcParse3339 : String → Option Int
  verify : VerifyConfig C → Bool
  diagnostic : VerifyConfig C → String
  versionStr : String

/-- One entry of the report: id, actual_result and context. -/
structure ResultJ where
  id : String
  actual_result : String
  context : Option String
deriving DecidableEq, Repr

/-- The report written to results.json. -/
structure Report where
  version : Nat
  harness : String
  results : List ResultJ
deriving DecidableEq, Repr

/-- pem_to_x509: decode one PEM blob, barf on failure. -/
def pem_to_x509 (E : Engine C) (pem : String) : Except String C :=
  match E.parseCert pem with
  | some c => Except.ok c
  | none => Except.error "failed to parse cert"

/-- x509_stack: decode a list of PEM blobs in order, barf on the first
failure.  (The same loop body builds the trust store.) -/
def x509_stack (E : Engine C) : List String → Except String (List C)
  | [] => Except.ok []
  | pem :: rest =>
    match pem_to_x509 E pem with
    | Except.error e => Except.error e
    | Except.ok c =>
      match x509_stack E rest with
      | Except.error e => Except.error e
      | Except.ok cs => Except.ok (c :: cs)

/-- The validation_time branch: if the field is a JSON string, parse it
as RFC 3339 and barf when parsing fails; any other shape (absent/null
or a non-string value) installs no override. -/
def parse_validation_time (E : Engine C) : JTime → Except String (Option Int)
  | JTime.str s =>
    match E.rfcParse3339 s with
    | some t => Except.ok (some t)
    | none => Except.error "couldn't parse RFC 3339 time from testcase?"
  | _ => Except.ok none

/-- The expected_peer_name branch: if the field is a JSON object,
dispatch on its kind (RFC822 / DNS / IP), barfing on any other kind;
otherwise no identity constraint is installed. -/
def peer_constraint : JPeer → Except String (Option PeerConstraint)
  | JPeer.obj kind v =>
    if kind = "RFC822" then Except.ok (some (PeerConstraint.email v))
    else if kind = "DNS" then Except.ok (some (PeerConstraint.dns v true))
    else if kind = "IP" then Except.ok (some (PeerConstraint.ip v))
    else Except.error ("unexpected peer kind: " ++ kind)
  | _ => Except.ok none

/-- The post-gate configuration pipeline, in source order: trusted
certs into the strict store, untrusted stack, peer certificate, time
override, identity constraint. -/
def buildConfig (E : Engine C) (now : Int) (tc : TestCase) :
    Except String (VerifyConfig C) :=
  match x509_stack E tc.trusted_certs with
  | Except.error e => Except.error e
  | Except.ok trusted =>
    match x509_stack E tc.untrusted_intermediates with
    | Except.error e => Except.error e
    | Except.ok untrusted =>
      match pem_to_x509 E tc.peer_certificate with
      | Except.error e => Except.error e
      | Except.ok peer =>
        match parse_validation_time E tc.validation_time with
        | Except.error e => Except.error e
        | Except.ok tov =>
          match peer_constraint tc.expected_peer_name with
          | Except.error e => Except.error e
          | Except.ok ident =>
            Except.ok
              { trusted := trusted
                strictProfile := true
                untrusted := untrusted
                peer := peer
                checkTime := tov.getD now
                identity := ident }

/-- skip: build a SKIPPED result carrying the reason, logging it. -/
def skip (id reason : String) : ResultJ × List String :=
  ({ id := id, actual_result := "SKIPPED", context := some reason },
   ["SKIP: id=" ++ id ++ " reason=" ++ reason])

/-- Prepend a diagnostic line to the log of a produced result. -/
def add_log (line : String) : ResultJ × List String → ResultJ × List String
  | (r, ls) => (r, line :: ls)

/-- Full evaluation of a gate-passing case: build the configuration,
invoke the engine, log PASS or FAIL against the declared expectation
(informational only), and classify the outcome. -/
def eval_supported (E : Engine C) (now : Int) (tc : TestCase) :
    Except String (ResultJ × List String) :=
  match buildConfig E now tc with
  | Except.error e => Except.error e
  | Except.ok cfg =>
    let should_pass : Bool := tc.expected_result == "SUCCESS"
    let does_pass : Bool := E.verify cfg
    Except.ok
      ({ id := tc.id
         actual_result := if does_pass then "SUCCESS" else "FAILURE"
         context := if does_pass then none else some (E.diagnostic cfg) },
       ["Evaluating case: " ++ tc.id,
        if should_pass != does_pass then
          "\tFAIL " ++ (if does_pass then "1" else "0") ++ "/"
            ++ (if should_pass then "1" else "0")
        else "\tPASS"])

/-- evaluate_testcase: the feature gate, in source order, then full
evaluation. -/
def evaluate_testcase (E : Engine C) (now : Int) (tc : TestCase) :
    Except String (ResultJ × List String) :=
  if tc.validation_kind ≠ "CLIENT" then
    Except.ok (add_log ("Evaluating case: " ++ tc.id)
      (skip tc.id "non-CLIENT testcases not supported yet"))
  else if tc.signature_algorithms.isSome then
    Except.ok (add_log ("Evaluating case: " ++ tc.id)
      (skip tc.id "signature_algorithms not supported yet"))
  else if tc.key_usage.isSome then
    Except.ok (add_log ("Evaluating case: " ++ tc.id)
      (skip tc.id "key_usage not supported yet"))
  else if tc.extended_key_usage.isSome then
    Except.ok (add_log ("Evaluating case: " ++ tc.id)
      (skip tc.id "extended_key_usage not supported yet"))
  else if tc.expected_peer_names.isSome then
    Except.ok (add_log ("Evaluating case: " ++ tc.id)
      (skip tc.id "expected_peer_names not supported yet"))
  else eval_supported E now tc

/-- The main loop: evaluate each case in order, collecting the result
records; a fatal error aborts the whole run.  The wall clock at the
i-th evaluation is now i. -/
def run_testcases (E : Engine C) (now : Nat → Int) :
    Nat → List TestCase → Except String (List ResultJ)
  | _, [] => Except.ok []
  | i, tc :: rest =>
    match evaluate_testcase E (now i) tc with
    | Except.error e => Except.error e
    | Except.ok r =>
      match run_testcases E now (i + 1) rest with
      | Except.error e => Except.error e
      | Except.ok rs => Except.ok (r.1 :: rs)

/-- Wrap the collected results into the report written by main. -/
def harness_report (E : Engine C) (now : Nat → Int) (tcs : List TestCase) :
    Except String Report :=
  match run_testcases E now 0 tcs with
  | Except.error e => Except.error e
  | Except.ok rs =>
    Except.ok { version := 1, harness := "openssl-" ++ E.versionStr, results := rs }

/-- Process outcome: exit code plus the report file content, if any.
barf exits with code 1 before the report is written; completing all
cases writes the report and returns 0. -/
def harness_main (E : Engine C) (now : Nat → Int) (tcs : List TestCase) :
    Nat × Option Report :=
  match harness_report E now tcs with
  | Except.ok r => (0, some r)
  | Except.error _ => (1, none)

/-- The five gate conditions with their skip reasons, in the priority
order stated by the spec (section 4.1). -/
def gate_conditions (tc : TestCase) : List (Bool × String) :=
  [ (tc.validation_kind != "CLIENT", "non-CLIENT testcases not supported yet"),
    (tc.signature_algorithms.isSome, "signature_algorithms not supported yet"),
    (tc.key_usage.isSome, "key_usage not supported yet"),
    (tc.extended_key_usage.isSome, "extended_key_usage not supported yet"),
    (tc.expected_peer_names.isSome, "expected_peer_names not supported yet") ]

/-- First-match semantics over a condition list, as the spec words the
gate: the reason of the first matching condition, if any. -/
def spec_first_match (cs : List (Bool × String)) : Option String :=
  cs.findSome? (fun c => if c.1 then some c.2 else none)

/-- A concrete engine instance over a unit certificate type, used to
instantiate the abstract statements on concrete inputs. -/
def oe : Engine Unit :=
  { parseCert := fun s => if s = "bad-pem" then none else some ()
    rfcParse3339 := fun s =>
      if s = "2023-01-01T00:00:00+00:00" then some 1672531200 else none
    verify := fun _ => true
    diagnostic := fun _ => "unable to get local issuer certificate"
    versionStr := "3.2.1" }

/-- A minimal fully-supported test case. -/
def tc0 : TestCase :=
  { id := "case-0"
    validation_kind := "CLIENT"
    trusted_certs := ["root-pem"]
    untrusted_intermediates := []
    peer_certificate := "leaf-pem"
    validation_time := JTime.null
    expected_result := "SUCCESS"
    expected_peer_name := JPeer.null
    signature_algorithms := none
    key_usage := none
    extended_key_usage := none
    expected_peer_names := none }

/-- A SERVER-kind case with several other gate conditions also set. -/
def tc_server : TestCase :=
  { tc0 with validation_kind := "SERVER", key_usage := some () }

/-- A CLIENT case matching both the signature_algorithms and key_usage
gate conditions. -/
def tc_sig : TestCase :=
  { tc0 with signature_algorithms := some (), key_usage := some () }

/-- A supported case with an explicit parsable validation_time. -/
def tc_time : TestCase :=
  { tc0 with validation_time := JTime.str "2023-01-01T00:00:00+00:00" }

/-- A supported case with an unparsable validation_time string. -/
def tc_badtime : TestCase :=
  { tc0 with validation_time := JTime.str "not-a-time" }

/-- A supported case whose validation_time is present but not a JSON
string. -/
def tc_numtime : TestCase :=
  { tc0 with validation_time := JTime.nonStr }

/-- A supported case with a DNS expected_peer_name. -/
def tc_dns : TestCase :=
  { tc0 with expected_peer_name := JPeer.obj "DNS" "example.com" }

/-- A supported case with an unrecognized expected_peer_name kind. -/
def tc_badkind : TestCase :=
  { tc0 with expected_peer_name := JPeer.obj "X400" "v" }

/-- A supported case whose peer certificate fails to decode under oe. -/
def tc_badcert : TestCase :=
  { tc0 with peer_certificate := "bad-pem" }

/-- tc0 with the opposite declared expectation. -/
def tc0_fail : TestCase :=
  { tc0 with expected_result := "FAILURE" }

/-- The configuration the harness builds for tc0 under oe at wall
clock 0. -/
def cfg0 : VerifyConfig Unit :=
  { trusted := [()], strictProfile := true, untrusted := [], peer := ()
    checkTime := 0, identity := none }

/-- The configuration built for tc_time under oe: check time taken
from the parsed validation_time, not the wall clock. -/
def cfgT : VerifyConfig Unit :=
  { trusted := [()], strictProfile := true, untrusted := [], peer := ()
    checkTime := 1672531200, identity := none }

/-- The configuration built for tc_dns under oe at wall clock 0. -/
def cfgD : VerifyConfig Unit :=
  { trusted := [()], strictProfile := true, untrusted := [], peer := ()
    checkTime := 0, identity := some (PeerConstraint.dns "example.com" true) }

/-- The configuration built for tc_numtime under oe at wall clock 5. -/
def cfgN : VerifyConfig Unit :=
  { trusted := [()], strictProfile := true, untrusted := [], peer := ()
    checkTime := 5, identity := none }

/-- The report produced for the two-case suite tc0, tc_server under
oe. -/
def rep01 : Report :=
  { version := 1, harness := "openssl-3.2.1",
    results := [ { id := "case-0", actual_result := "SUCCESS", context := none },
                 { id := "case-0", actual_result := "SKIPPED",
                   context := some "non-CLIENT testcases not supported yet" } ] }

/-- The report produced for the single-case suite tc_time under oe,
whatever the wall clock. -/
def repT : Report :=
  { version := 1, harness := "openssl-3.2.1",
    results := [ { id := "case-0", actual_result := "SUCCESS", context := none } ] }

/-- The five gate facts extracted from a first-match miss. -/
theorem gate_none_facts (tc : TestCase)
    (h : spec_first_match (gate_conditions tc) = none) :
    tc.validation_kind = "CLIENT" ∧ tc.signature_algorithms = none
    ∧ tc.key_usage = none ∧ tc.extended_key_usage = none
    ∧ tc.expected_peer_names = none := by
  by_cases h1 : tc.validation_kind = "CLIENT" <;>
  by_cases h2 : tc.signature_algorithms.isSome <;>
  by_cases h3 : tc.key_usage.isSome <;>
  by_cases h4 : tc.extended_key_usage.isSome <;>
  by_cases h5 : tc.expected_peer_names.isSome <;>
    simp_all [spec_first_match, gate_conditions, List.findSome?, bne_iff_ne,
      Option.not_isSome_iff_eq_none]

/-- Any SKIPPED result produced by evaluate_testcase carries a reason. -/
theorem skipped_has_reason (C : Type) (E : Engine C) (now : Int) (tc : TestCase)
    (res : ResultJ) (log : List String)
    (h : evaluate_testcase E now tc = Except.ok (res, log))
    (hskip : res.actual_result = "SKIPPED") : res.context.isSome := by
  unfold evaluate_testcase at h
  split at h
  · simp [add_log, skip] at h
    simp [← h.1]
  · split at h
    · simp [add_log, skip] at h
      simp [← h.1]
    · split at h
      · simp [add_log, skip] at h
        simp [← h.1]
      · split at h
        · simp [add_log, skip] at h
          simp [← h.1]
        · split at h
          · simp [add_log, skip] at h
            simp [← h.1]
          · unfold eval_supported at h
            split at h
            · exact absurd h (by simp)
            · rename_i cfg _
              simp only [Except.ok.injEq, Prod.mk.injEq] at h
              obtain ⟨h1, h2⟩ := h
              subst h1
              cases hv : E.verify cfg <;> simp [hv] at hskip ⊢

/-- A case missing every gate condition proceeds to full evaluation. -/
theorem evaluate_of_gate_none (C : Type) (E : Engine C) (now : Int) (tc : TestCase)
    (h : spec_first_match (gate_conditions tc) = none) :
    evaluate_testcase E now tc = eval_supported E now tc := by
  obtain ⟨h1, h2, h3, h4, h5⟩ := gate_none_facts tc h
  simp [evaluate_testcase, h1, h2, h3, h4, h5]

/-- C1: the feature gate applies exactly the five checks in priority
order — validation_kind, signature_algorithms, key_usage,
extended_key_usage, expected_peer_names — and a case matching several
conditions is SKIPPED with the context of only the first matching one;
a case matching none proceeds to full evaluation. -/
theorem gate_priority_order (C : Type) (E : Engine C) (now : Int) (tc : TestCase) :
    (∀ r, spec_first_match (gate_conditions tc) = some r →
      evaluate_testcase E now tc =
        Except.ok (add_log ("Evaluating case: " ++ tc.id) (skip tc.id r)))
    ∧ (spec_first_match (gate_conditions tc) = none →
      evaluate_testcase E now tc = eval_supported E now tc) := by
  constructor
  · intro r hr
    by_cases h1 : tc.validation_kind = "CLIENT" <;>
    by_cases h2 : tc.signature_algorithms.isSome <;>
    by_cases h3 : tc.key_usage.isSome <;>
    by_cases h4 : tc.extended_key_usage.isSome <;>
    by_cases h5 : tc.expected_peer_names.isSome <;>
      simp_all [spec_first_match, gate_conditions, evaluate_testcase,
        List.findSome?, bne_iff_ne]
  · intro hn
    by_cases h1 : tc.validation_kind = "CLIENT" <;>
    by_cases h2 : tc.signature_algorithms.isSome <;>
    by_cases h3 : tc.key_usage.isSome <;>
    by_cases h4 : tc.extended_key_usage.isSome <;>
    by_cases h5 : tc.expected_peer_names.isSome <;>
      simp_all [spec_first_match, gate_conditions, evaluate_testcase,
        List.findSome?, bne_iff_ne]

/-- Witness for C1: a CLIENT case with both signature_algorithms and
key_usage non-null is skipped with the signature_algorithms reason
(the first matching condition). -/
theorem gate_priority_order_witness :
    evaluate_testcase oe 0 tc_sig =
      Except.ok (add_log ("Evaluating case: " ++ tc_sig.id)
        (skip tc_sig.id "signature_algorithms not supported yet")) :=
  (gate_priority_order Unit oe 0 tc_sig).1
    "signature_algorithms not supported yet" rfl

/-- C5: a case whose validation_kind is not CLIENT, whatever its other
fields, is SKIPPED with context non-CLIENT testcases not supported yet;
the right-hand side mentions neither the engine nor the wall clock, so
no certificate materialization or engine invocation occurs. -/
theorem non_client_skipped (C : Type) (E : Engine C) (now : Int) (tc : TestCase)
    (h : tc.validation_kind ≠ "CLIENT") :
    evaluate_testcase E now tc =
      Except.ok ({ id := tc.id, actual_result := "SKIPPED",
                   context := some "non-CLIENT testcases not supported yet" },
        ["Evaluating case: " ++ tc.id,
         "SKIP: id=" ++ tc.id ++ " reason="
           ++ "non-CLIENT testcases not supported yet"]) := by
  simp [evaluate_testcase, h, skip, add_log]

/-- Witness for C5: the SERVER-kind case is skipped with the
non-CLIENT reason. -/
theorem non_client_skipped_witness :
    evaluate_testcase oe 0 tc_server =
      Except.ok ({ id := tc_server.id, actual_result := "SKIPPED",
                   context := some "non-CLIENT testcases not supported yet" },
        ["Evaluating case: " ++ tc_server.id,
         "SKIP: id=" ++ tc_server.id ++ " reason="
           ++ "non-CLIENT testcases not supported yet"]) :=
  non_client_skipped Unit oe 0 tc_server (by decide)

/-- C2: for a case passing the feature gate, the emitted Result is
SUCCESS with null context exactly when the engine accepts and FAILURE
with the engine diagnostic as context exactly when it rejects; any
SKIPPED result carries a non-null reason. -/
theorem result_shape_postgate (C : Type) (E : Engine C) (now : Int) (tc : TestCase) :
    (∀ res log, evaluate_testcase E now tc = Except.ok (res, log) →
      res.actual_result = "SKIPPED" → res.context.isSome)
    ∧ (spec_first_match (gate_conditions tc) = none →
      ∀ cfg, buildConfig E now tc = Except.ok cfg →
        ∃ log, evaluate_testcase E now tc =
          Except.ok ({ id := tc.id,
                       actual_result := if E.verify cfg then "SUCCESS" else "FAILURE",
                       context := if E.verify cfg then none
                                  else some (E.diagnostic cfg) }, log)) := by
  constructor
  · exact fun res log h hskip => skipped_has_reason C E now tc res log h hskip
  · intro hgate cfg hcfg
    refine ⟨["Evaluating case: " ++ tc.id,
      if (tc.expected_result == "SUCCESS") != E.verify cfg then
        "\tFAIL " ++ (if E.verify cfg then "1" else "0") ++ "/"
          ++ (if tc.expected_result == "SUCCESS" then "1" else "0")
      else "\tPASS"], ?_⟩
    rw [evaluate_of_gate_none C E now tc hgate]
    unfold eval_supported
    rw [hcfg]

/-- Witness for C2: the minimal supported case is accepted by the oe
engine and classified SUCCESS with null context. -/
theorem result_shape_postgate_witness :
    ∃ log, evaluate_testcase oe 0 tc0 =
      Except.ok ({ id := tc0.id,
                   actual_result := if oe.verify cfg0 then "SUCCESS" else "FAILURE",
                   context := if oe.verify cfg0 then none
                              else some (oe.diagnostic cfg0) }, log) :=
  (result_shape_postgate Unit oe 0 tc0).2 rfl cfg0 rfl

/-- The full-evaluation pipeline builds the same configuration
whatever the declared expectation. -/
theorem eval_supported_fst_expected (C : Type) (E : Engine C) (now : Int)
    (tc : TestCase) (e : String) :
    (eval_supported E now { tc with expected_result := e }).map Prod.fst
    = (eval_supported E now tc).map Prod.fst := by
  have hb : buildConfig E now { tc with expected_result := e }
      = buildConfig E now tc := rfl
  unfold eval_supported
  rw [hb]
  cases hc : buildConfig E now tc <;> simp [Except.map]

/-- Changing only the declared expectation never changes the produced
Result record or error. -/
theorem eval_fst_expected (C : Type) (E : Engine C) (now : Int)
    (tc : TestCase) (e : String) :
    (evaluate_testcase E now { tc with expected_result := e }).map Prod.fst
    = (evaluate_testcase E now tc).map Prod.fst := by
  unfold evaluate_testcase
  dsimp only
  split_ifs <;> simp [eval_supported_fst_expected]

/-- C4: the comparison against expected_result is informational only:
two cases identical except for expected_result yield identical Result
records (and identical fatal-error behavior); only the diagnostic log
can differ. -/
theorem expected_result_only_logging (C : Type) (E : Engine C) (now : Int)
    (tc1 tc2 : TestCase)
    (h : tc2 = { tc1 with expected_result := tc2.expected_result }) :
    (evaluate_testcase E now tc1).map Prod.fst
    = (evaluate_testcase E now tc2).map Prod.fst := by
  conv_rhs => rw [h]
  exact (eval_fst_expected C E now tc1 tc2.expected_result).symm

/-- Witness for C4: tc0 with expectation SUCCESS and with expectation
FAILURE produce the same Result record. -/
theorem expected_result_only_logging_witness :
    (evaluate_testcase oe 0 tc0).map Prod.fst
    = (evaluate_testcase oe 0 tc0_fail).map Prod.fst :=
  expected_result_only_logging Unit oe 0 tc0 tc0_fail (by decide)

/-- C6: for a supported case whose certificates decode, a string
validation_time is parsed by the RFC 3339 primitive: on success the
engine check time is overridden to the parsed instant; on failure the
run aborts with the fatal parse diagnostic; an absent validation_time
leaves the engine on the wall clock. -/
theorem validation_time_handling (C : Type) (E : Engine C) (now : Int)
    (tc : TestCase) (ts us : List C) (p : C)
    (hgate : spec_first_match (gate_conditions tc) = none)
    (h1 : x509_stack E tc.trusted_certs = Except.ok ts)
    (h2 : x509_stack E tc.untrusted_intermediates = Except.ok us)
    (h3 : pem_to_x509 E tc.peer_certificate = Except.ok p) :
    (∀ s t, tc.validation_time = JTime.str s → E.rfcParse3339 s = some t →
      parse_validation_time E tc.validation_time = Except.ok (some t)
      ∧ ∀ cfg, buildConfig E now tc = Except.ok cfg → cfg.checkTime = t)
    ∧ (∀ s, tc.validation_time = JTime.str s → E.rfcParse3339 s = none →
      evaluate_testcase E now tc =
        Except.error "couldn't parse RFC 3339 time from testcase?")
    ∧ (tc.validation_time = JTime.null →
      ∀ cfg, buildConfig E now tc = Except.ok cfg → cfg.checkTime = now) := by
  refine ⟨fun s t hs hp => ⟨?_, ?_⟩, fun s hs hp => ?_, fun hs cfg hcfg => ?_⟩
  · simp [parse_validation_time, hs, hp]
  · intro cfg hcfg
    simp [buildConfig, h1, h2, h3, parse_validation_time, hs, hp] at hcfg
    rcases hpc : peer_constraint tc.expected_peer_name with e | ident <;>
      simp [hpc] at hcfg
    simp [← hcfg]
  · rw [evaluate_of_gate_none C E now tc hgate]
    unfold eval_supported
    simp [buildConfig, h1, h2, h3, parse_validation_time, hs, hp]
  · simp [buildConfig, h1, h2, h3, parse_validation_time, hs] at hcfg
    rcases hpc : peer_constraint tc.expected_peer_name with e | ident <;>
      simp [hpc] at hcfg
    simp [← hcfg]

/-- Witness for C6: tc_time carries a parsable timestamp, and the
built configuration checks at the parsed instant, not the wall
clock 7. -/
theorem validation_time_handling_witness :
    parse_validation_time oe tc_time.validation_time = Except.ok (some 1672531200)
    ∧ cfgT.checkTime = 1672531200 :=
  ⟨((validation_time_handling Unit oe 7 tc_time [()] [] () rfl rfl rfl rfl).1
      "2023-01-01T00:00:00+00:00" 1672531200 rfl rfl).1,
   ((validation_time_handling Unit oe 7 tc_time [()] [] () rfl rfl rfl rfl).1
      "2023-01-01T00:00:00+00:00" 1672531200 rfl rfl).2 cfgT rfl⟩

/-- C7: for a supported case whose materialization and time parsing
succeed, a present expected_peer_name maps RFC822 to an email
constraint, DNS to a DNS constraint with partial wildcards disabled,
IP to a textual IP constraint; any other kind aborts the run; an
absent expected_peer_name installs no identity constraint. -/
theorem peer_name_mapping (C : Type) (E : Engine C) (now : Int)
    (tc : TestCase) (ts us : List C) (p : C) (tov : Option Int)
    (hgate : spec_first_match (gate_conditions tc) = none)
    (h1 : x509_stack E tc.trusted_certs = Except.ok ts)
    (h2 : x509_stack E tc.untrusted_intermediates = Except.ok us)
    (h3 : pem_to_x509 E tc.peer_certificate = Except.ok p)
    (h4 : parse_validation_time E tc.validation_time = Except.ok tov) :
    (∀ kind v, tc.expected_peer_name = JPeer.obj kind v →
      (kind = "RFC822" → buildConfig E now tc =
        Except.ok { trusted := ts, strictProfile := true, untrusted := us,
                    peer := p, checkTime := tov.getD now,
                    identity := some (PeerConstraint.email v) })
      ∧ (kind = "DNS" → buildConfig E now tc =
        Except.ok { trusted := ts, strictProfile := true, untrusted := us,
                    peer := p, checkTime := tov.getD now,
                    identity := some (PeerConstraint.dns v true) })
      ∧ (kind = "IP" → buildConfig E now tc =
        Except.ok { trusted := ts, strictProfile := true, untrusted := us,
                    peer := p, checkTime := tov.getD now,
                    identity := some (PeerConstraint.ip v) })
      ∧ (kind ≠ "RFC822" → kind ≠ "DNS" → kind ≠ "IP" →
        evaluate_testcase E now tc =
          Except.error ("unexpected peer kind: " ++ kind)))
    ∧ (tc.expected_peer_name = JPeer.null → buildConfig E now tc =
        Except.ok { trusted := ts, strictProfile := true, untrusted := us,
                    peer := p, checkTime := tov.getD now,
                    identity := none }) := by
  constructor
  · intro kind v hobj
    refine ⟨fun hk => ?_, fun hk => ?_, fun hk => ?_, fun hk1 hk2 hk3 => ?_⟩
    · simp [buildConfig, h1, h2, h3, h4, peer_constraint, hobj, hk]
    · simp [buildConfig, h1, h2, h3, h4, peer_constraint, hobj, hk]
    · simp [buildConfig, h1, h2, h3, h4, peer_constraint, hobj, hk]
    · rw [evaluate_of_gate_none C E now tc hgate]
      unfold eval_supported
      simp [buildConfig, h1, h2, h3, h4, peer_constraint, hobj, hk1, hk2, hk3]
  · intro hnull
    simp [buildConfig, h1, h2, h3, h4, peer_constraint, hnull]

/-- Witness for C7: tc_dns yields a DNS identity constraint on
example.com with partial wildcards disabled. -/
theorem peer_name_mapping_witness :
    buildConfig oe 0 tc_dns = Except.ok cfgD :=
  ((peer_name_mapping Unit oe 0 tc_dns [()] [] () none rfl rfl rfl rfl rfl).1
     "DNS" "example.com" rfl).2.1 rfl

/-- C10: a validation_time that is present but not a JSON string
installs no override and raises no error: the parsing branch is
skipped and the built configuration checks at the wall clock. -/
theorem non_string_time_ignored (C : Type) (E : Engine C) (now : Int)
    (tc : TestCase) (ht : tc.validation_time = JTime.nonStr) :
    parse_validation_time E tc.validation_time = Except.ok none
    ∧ ∀ cfg, buildConfig E now tc = Except.ok cfg → cfg.checkTime = now := by
  constructor
  · rw [ht]
    rfl
  · intro cfg hcfg
    unfold buildConfig at hcfg
    rcases hx1 : x509_stack E tc.trusted_certs with e | ts <;> rw [hx1] at hcfg
    · exact absurd hcfg (by simp)
    rcases hx2 : x509_stack E tc.untrusted_intermediates with e | us <;> rw [hx2] at hcfg
    · exact absurd hcfg (by simp)
    rcases hx3 : pem_to_x509 E tc.peer_certificate with e | p <;> rw [hx3] at hcfg
    · exact absurd hcfg (by simp)
    rw [ht] at hcfg
    rcases hpc : peer_constraint tc.expected_peer_name with e | ident <;>
      simp [parse_validation_time, hpc] at hcfg
    simp [← hcfg]

/-- Witness for C10: tc_numtime installs no override and the built
configuration checks at the wall clock 5. -/
theorem non_string_time_ignored_witness :
    parse_validation_time oe tc_numtime.validation_time = Except.ok none
    ∧ cfgN.checkTime = 5 :=
  ⟨(non_string_time_ignored Unit oe 5 tc_numtime rfl).1,
   (non_string_time_ignored Unit oe 5 tc_numtime rfl).2 cfgN rfl⟩

/-- Every successful evaluation copies the id of its test case. -/
theorem evaluate_id (C : Type) (E : Engine C) (t : Int) (tc : TestCase)
    (r : ResultJ) (log : List String)
    (h : evaluate_testcase E t tc = Except.ok (r, log)) : r.id = tc.id := by
  unfold evaluate_testcase at h
  split at h
  · simp [add_log, skip] at h
    simp [← h.1]
  · split at h
    · simp [add_log, skip] at h
      simp [← h.1]
    · split at h
      · simp [add_log, skip] at h
        simp [← h.1]
      · split at h
        · simp [add_log, skip] at h
          simp [← h.1]
        · split at h
          · simp [add_log, skip] at h
            simp [← h.1]
          · unfold eval_supported at h
            split at h
            · exact absurd h (by simp)
            · simp only [Except.ok.injEq, Prod.mk.injEq] at h
              obtain ⟨h1, h2⟩ := h
              subst h1
              rfl

/-- A completed run yields one result per case, in input order. -/
theorem run_testcases_len_id (C : Type) (E : Engine C) (now : Nat → Int) :
    ∀ (tcs : List TestCase) (i : Nat) (rs : List ResultJ),
      run_testcases E now i tcs = Except.ok rs →
      rs.length = tcs.length
      ∧ ∀ k (hk : k < tcs.length) (hk2 : k < rs.length),
          (rs.get ⟨k, hk2⟩).id = (tcs.get ⟨k, hk⟩).id := by
  intro tcs
  induction tcs with
  | nil =>
    intro i rs h
    simp [run_testcases] at h
    subst h
    simp
  | cons tc rest ih =>
    intro i rs h
    unfold run_testcases at h
    rcases he : evaluate_testcase E (now i) tc with e | r <;> rw [he] at h
    · exact absurd h (by simp)
    rcases hr : run_testcases E now (i + 1) rest with e | rs2 <;> rw [hr] at h
    · exact absurd h (by simp)
    simp only [Except.ok.injEq] at h
    subst h
    obtain ⟨hlen, hids⟩ := ih (i + 1) rs2 hr
    refine ⟨by simp [hlen], ?_⟩
    intro k hk hk2
    cases k with
    | zero =>
      obtain ⟨r1, rlog⟩ := r
      simpa using evaluate_id C E (now i) tc r1 rlog he
    | succ k2 =>
      simpa using hids k2 (by simpa using hk) (by simpa using hk2)



/-- C3: a completed run yields a report with version 1, a harness
string combining the engine name and version, and exactly one result
per input case, position by position carrying the id of the
corresponding input case. -/
theorem report_structure (C : Type) (E : Engine C) (now : Nat → Int)
    (tcs : List TestCase) (rep : Report)
    (h : harness_report E now tcs = Except.ok rep) :
    rep.version = 1 ∧ rep.harness = "openssl-" ++ E.versionStr
    ∧ rep.results.length = tcs.length
    ∧ ∀ k (hk : k < tcs.length) (hk2 : k < rep.results.length),
        (rep.results.get ⟨k, hk2⟩).id = (tcs.get ⟨k, hk⟩).id := by
  unfold harness_report at h
  rcases hr : run_testcases E now 0 tcs with e | rs <;> rw [hr] at h
  · exact absurd h (by simp)
  simp only [Except.ok.injEq] at h
  subst h
  obtain ⟨hlen, hids⟩ := run_testcases_len_id C E now tcs 0 rs hr
  exact ⟨rfl, rfl, hlen, hids⟩

/-- Witness for C3: the two-case suite tc0, tc_server produces the
two-entry report rep01. -/
theorem report_structure_witness :
    rep01.version = 1 ∧ rep01.harness = "openssl-" ++ oe.versionStr
    ∧ rep01.results.length = [tc0, tc_server].length
    ∧ (rep01.results.get ⟨1, by decide⟩).id
        = ([tc0, tc_server].get ⟨1, by decide⟩).id :=
  ⟨(report_structure Unit oe (fun _ => 0) [tc0, tc_server] rep01 rfl).1,
   (report_structure Unit oe (fun _ => 0) [tc0, tc_server] rep01 rfl).2.1,
   (report_structure Unit oe (fun _ => 0) [tc0, tc_server] rep01 rfl).2.2.1,
   (report_structure Unit oe (fun _ => 0) [tc0, tc_server] rep01 rfl).2.2.2
     1 (by decide) (by decide)⟩



/-- The only materialization failure message. -/
theorem pem_to_x509_error (C : Type) (E : Engine C) (pem : String) (e : String)
    (h : pem_to_x509 E pem = Except.error e) : e = "failed to parse cert" := by
  unfold pem_to_x509 at h
  rcases hp : E.parseCert pem with _ | c <;> rw [hp] at h <;> simp at h
  exact h.symm

/-- The only failure message of the certificate-stack builder. -/
theorem x509_stack_error_msg (C : Type) (E : Engine C) :
    ∀ (pems : List String) (e : String),
      x509_stack E pems = Except.error e → e = "failed to parse cert" := by
  intro pems
  induction pems with
  | nil =>
    intro e h
    simp [x509_stack] at h
  | cons q rest ih =>
    intro e h
    unfold x509_stack at h
    rcases hq : pem_to_x509 E q with e2 | c <;> rw [hq] at h
    · simp at h
      subst h
      exact pem_to_x509_error C E q e2 hq
    · rcases hr : x509_stack E rest with e2 | cs <;> rw [hr] at h <;> simp at h
      subst h
      exact ih e2 hr

/-- A stack containing any undecodable blob fails to materialize. -/
theorem x509_stack_error_of_mem (C : Type) (E : Engine C) :
    ∀ (pems : List String) (pem : String), pem ∈ pems → E.parseCert pem = none →
      x509_stack E pems = Except.error "failed to parse cert" := by
  intro pems
  induction pems with
  | nil =>
    intro pem h
    exact absurd h (List.not_mem_nil pem)
  | cons q rest ih =>
    intro pem hmem hbad
    rcases List.mem_cons.mp hmem with rfl | hmem2
    · simp [x509_stack, pem_to_x509, hbad]
    · unfold x509_stack
      rcases hq : pem_to_x509 E q with e | c
      · simp
        exact pem_to_x509_error C E q e hq
      · simp [ih pem hmem2 hbad]

/-- Any undecodable certificate of a case (trusted, intermediate or
peer) aborts that case with the materialization diagnostic. -/
theorem buildConfig_error_of_badcert (C : Type) (E : Engine C) (now : Int)
    (tc : TestCase) (pem : String)
    (hmem : pem ∈ tc.trusted_certs ++ tc.untrusted_intermediates
              ++ [tc.peer_certificate])
    (hbad : E.parseCert pem = none) :
    buildConfig E now tc = Except.error "failed to parse cert" := by
  rcases List.mem_append.mp hmem with hab | hp
  · rcases List.mem_append.mp hab with h1 | h2
    · simp [buildConfig, x509_stack_error_of_mem C E tc.trusted_certs pem h1 hbad]
    · unfold buildConfig
      rcases ht : x509_stack E tc.trusted_certs with e | ts
      · simp
        exact x509_stack_error_msg C E tc.trusted_certs e ht
      · simp [x509_stack_error_of_mem C E tc.untrusted_intermediates pem h2 hbad]
  · have hpeer : pem = tc.peer_certificate := by simpa using hp
    subst hpeer
    unfold buildConfig
    rcases ht : x509_stack E tc.trusted_certs with e | ts
    · simp
      exact x509_stack_error_msg C E tc.trusted_certs e ht
    · rcases hu : x509_stack E tc.untrusted_intermediates with e | us
      · simp
        exact x509_stack_error_msg C E tc.untrusted_intermediates e hu
      · simp [pem_to_x509, hbad]

/-- A gate-passing case with an undecodable certificate evaluates to a
fatal error, whatever the wall clock. -/
theorem evaluate_error_of_badcert (C : Type) (E : Engine C) (t : Int)
    (tc : TestCase)
    (hgate : spec_first_match (gate_conditions tc) = none)
    (pem : String)
    (hmem : pem ∈ tc.trusted_certs ++ tc.untrusted_intermediates
              ++ [tc.peer_certificate])
    (hbad : E.parseCert pem = none) :
    evaluate_testcase E t tc = Except.error "failed to parse cert" := by
  rw [evaluate_of_gate_none C E t tc hgate]
  unfold eval_supported
  rw [buildConfig_error_of_badcert C E t tc pem hmem hbad]

/-- A run over a suite containing an always-fatal case is fatal. -/
theorem run_error_of_case_error (C : Type) (E : Engine C) (now : Nat → Int) :
    ∀ (tcs : List TestCase) (i : Nat) (tc : TestCase), tc ∈ tcs →
      (∀ t, evaluate_testcase E t tc = Except.error "failed to parse cert") →
      ∃ m, run_testcases E now i tcs = Except.error m := by
  intro tcs
  induction tcs with
  | nil =>
    intro i tc h
    exact absurd h (List.not_mem_nil tc)
  | cons q rest ih =>
    intro i tc hmem herr
    rcases List.mem_cons.mp hmem with rfl | h2
    · exact ⟨"failed to parse cert", by simp [run_testcases, herr (now i)]⟩
    · unfold run_testcases
      rcases hq : evaluate_testcase E (now i) q with e | r
      · exact ⟨e, by simp⟩
      · obtain ⟨m, hm⟩ := ih (i + 1) tc h2 herr
        exact ⟨m, by simp [hm]⟩

/-- C8: an undecodable certificate in any gate-passing case makes the
process exit 1 with no report written, discarding prior results;
completing all cases yields exit 0 and exactly the computed report. -/
theorem fatal_cert_error_no_report (C : Type) (E : Engine C) (now : Nat → Int)
    (tcs : List TestCase) :
    (∀ tc ∈ tcs, spec_first_match (gate_conditions tc) = none →
      ∀ pem ∈ tc.trusted_certs ++ tc.untrusted_intermediates
                ++ [tc.peer_certificate],
        E.parseCert pem = none → harness_main E now tcs = (1, none))
    ∧ (∀ rep, harness_report E now tcs = Except.ok rep →
        harness_main E now tcs = (0, some rep)) := by
  constructor
  · intro tc hmem hgate pem hpem hbad
    obtain ⟨m, hm⟩ := run_error_of_case_error C E now tcs 0 tc hmem
      (fun t => evaluate_error_of_badcert C E t tc hgate pem hpem hbad)
    simp [harness_main, harness_report, hm]
  · intro rep h
    simp [harness_main, h]

/-- Witness for C8: a suite whose second case has an undecodable peer
certificate exits 1 with no report, although the first case succeeded. -/
theorem fatal_cert_error_no_report_witness :
    harness_main oe (fun _ => 0) [tc0, tc_badcert] = (1, none) :=
  (fatal_cert_error_no_report Unit oe (fun _ => 0) [tc0, tc_badcert]).1
    tc_badcert (by decide) rfl "bad-pem" (by decide) rfl



/-- With a string validation_time, the built configuration does not
depend on the wall clock. -/
theorem buildConfig_time_indep (C : Type) (E : Engine C) (t1 t2 : Int)
    (tc : TestCase) (s : String) (h : tc.validation_time = JTime.str s) :
    buildConfig E t1 tc = buildConfig E t2 tc := by
  unfold buildConfig
  rw [h]
  rcases hx1 : x509_stack E tc.trusted_certs with e | ts <;>
  rcases hx2 : x509_stack E tc.untrusted_intermediates with e2 | us <;>
  rcases hx3 : pem_to_x509 E tc.peer_certificate with e3 | p <;>
  rcases hx4 : E.rfcParse3339 s with _ | t <;>
    simp [parse_validation_time, hx4]

/-- With a string validation_time, evaluation does not depend on the
wall clock. -/
theorem evaluate_time_indep (C : Type) (E : Engine C) (t1 t2 : Int)
    (tc : TestCase) (s : String) (h : tc.validation_time = JTime.str s) :
    evaluate_testcase E t1 tc = evaluate_testcase E t2 tc := by
  have hb := buildConfig_time_indep C E t1 t2 tc s h
  unfold evaluate_testcase eval_supported
  rw [hb]

/-- Across two completed runs over the same suite, positions whose
case has a string validation_time carry equal results. -/
theorem run_get_time_indep (C : Type) (E : Engine C) (now1 now2 : Nat → Int) :
    ∀ (tcs : List TestCase) (i j : Nat) (rs1 rs2 : List ResultJ),
      run_testcases E now1 i tcs = Except.ok rs1 →
      run_testcases E now2 j tcs = Except.ok rs2 →
      ∀ k s (hk : k < tcs.length),
        (tcs.get ⟨k, hk⟩).validation_time = JTime.str s →
        rs1.get? k = rs2.get? k := by
  intro tcs
  induction tcs with
  | nil =>
    intro i j rs1 rs2 h1 h2 k s hk
    exact absurd hk (by simp)
  | cons q rest ih =>
    intro i j rs1 rs2 h1 h2 k s hk ht
    unfold run_testcases at h1 h2
    rcases he1 : evaluate_testcase E (now1 i) q with e | r1 <;> rw [he1] at h1
    · exact absurd h1 (by simp)
    rcases hr1 : run_testcases E now1 (i + 1) rest with e | rest1 <;> rw [hr1] at h1
    · exact absurd h1 (by simp)
    rcases he2 : evaluate_testcase E (now2 j) q with e | r2 <;> rw [he2] at h2
    · exact absurd h2 (by simp)
    rcases hr2 : run_testcases E now2 (j + 1) rest with e | rest2 <;> rw [hr2] at h2
    · exact absurd h2 (by simp)
    simp only [Except.ok.injEq] at h1 h2
    subst h1
    subst h2
    cases k with
    | zero =>
      have hq : evaluate_testcase E (now1 i) q = evaluate_testcase E (now2 j) q :=
        evaluate_time_indep C E (now1 i) (now2 j) q s (by simpa using ht)
      rw [he1, he2] at hq
      simp only [Except.ok.injEq] at hq
      simp [hq]
    | succ k2 =>
      simpa using ih (i + 1) (j + 1) rest1 rest2 hr1 hr2 k2 s
        (by simpa using hk) (by simpa using ht)

/-- C9: two runs over the same input agree, position for position, on
every case carrying an explicit validation_time, whatever the wall
clocks of the two runs; such a position always holds a result. -/
theorem explicit_time_determinism (C : Type) (E : Engine C)
    (now1 now2 : Nat → Int) (tcs : List TestCase) (rep1 rep2 : Report)
    (h1 : harness_report E now1 tcs = Except.ok rep1)
    (h2 : harness_report E now2 tcs = Except.ok rep2)
    (k : Nat) (s : String) (hk : k < tcs.length)
    (ht : (tcs.get ⟨k, hk⟩).validation_time = JTime.str s) :
    rep1.results.get? k = rep2.results.get? k
    ∧ ∃ res, rep1.results.get? k = some res := by
  unfold harness_report at h1 h2
  rcases hr1 : run_testcases E now1 0 tcs with e | rs1 <;> rw [hr1] at h1
  · exact absurd h1 (by simp)
  rcases hr2 : run_testcases E now2 0 tcs with e | rs2 <;> rw [hr2] at h2
  · exact absurd h2 (by simp)
  simp only [Except.ok.injEq] at h1 h2
  subst h1
  subst h2
  dsimp only
  have hlen := (run_testcases_len_id C E now1 tcs 0 rs1 hr1).1
  refine ⟨run_get_time_indep C E now1 now2 tcs 0 0 rs1 rs2 hr1 hr2 k s hk ht, ?_⟩
  exact ⟨rs1.get ⟨k, by omega⟩, List.get?_eq_get (by omega)⟩

/-- Witness for C9: the suite of the single case tc_time produces the
same report entry at wall clocks 10 and 20. -/
theorem explicit_time_determinism_witness :
    repT.results.get? 0 = repT.results.get? 0
    ∧ ∃ res, repT.results.get? 0 = some res :=
  explicit_time_determinism Unit oe (fun _ => 10) (fun _ => 20) [tc_time] repT repT
    rfl rfl 0 "2023-01-01T00:00:00+00:00" (by decide) rfl

end Limbo
